import Mathlib

/-!
# Verification of the ebike-status request handler

A shallow embedding of the Go program in `main.go` (the current revision,
given here as `src/unnamed/part_000`; an earlier revision `src/main.go`
shares `populateCounts`, `Bars` and the data model verbatim).

The program fetches a GBFS `station_status.json` feed, joins it against a
hardcoded station directory keyed by station ID, and renders the result as
an HTML page (via `html/template`) or as fixed-width plain text.  Go maps
are modelled as association lists (`assocGet` / `assocSet`); machine `int`
is modelled as `Int` (the only arithmetic performed on counts is copying
and the two feed-total sums, on which nothing here depends at overflow);
external I/O (the upstream HTTP GET and the JSON decode) is modelled as an
explicit outcome value fed to the handler.
-/

namespace EbikeStatus

/-- `type color string` with constants `green`, `yellow`, `red`.
The Go zero value of the type is the empty string. -/
abbrev color := String

def green : color := "green"

def yellow : color := "yellow"

def red : color := "red"

/-- `type StationInfo struct` — a directory entry.  The Go zero values of
the fields omitted in the `Regions` literal are `Count = 0` and
`CSSClass = ""`. -/
structure StationInfo where
  ID : String
  Name : String
  Count : Int := 0
  CSSClass : color := ""
deriving DecidableEq, Repr

/-- `func (s *StationInfo) Bars() []struct{} { return make([]struct{}, s.Count) }`.
`make` with a negative length panics at run time (`makeslice: len out of
range`); the panic is modelled as `none`. -/
def StationInfo.Bars (s : StationInfo) : Option (List Unit) :=
  if s.Count < 0 then none else some (List.replicate s.Count.toNat ())

/-- `type Region struct { Name string; Stations []StationInfo }`. -/
structure Region where
  Name : String
  Stations : List StationInfo
deriving DecidableEq, Repr

/-- `var Regions = []Region{...}` — the hardcoded station directory. -/
def Regions : List Region := [
  { Name := "Embarcadero",
    Stations := [
      { ID := "22", Name := "Howard St at Beale St" },
      { ID := "17", Name := "Beale St at Market St" },
      { ID := "20", Name := "Market St at Bush St" },
      { ID := "27", Name := "Beale St at Harrison St" }] },
  { Name := "Mission",
    Stations := [
      { ID := "139", Name := "25th St at Harrison St" },
      { ID := "129", Name := "Harrison St at 20th St" },
      { ID := "125", Name := "20th St at Bryant St" },
      { ID := "124", Name := "19th St at Florida St" }] },
  { Name := "Potrero",
    Stations := [
      { ID := "130", Name := "22nd St Caltrain Station" },
      { ID := "126", Name := "Esprit Park" }] }]

/-- An element of `eightd_active_station_services`. -/
structure EightdService where
  ID : String
deriving DecidableEq, Repr

/-- `type StationStatus struct` — one per-station record of the feed.
Field names and order follow the Go struct. -/
structure StationStatus where
  EightdActiveStationServices : List EightdService := []
  EightdHasAvailableKeys : Bool := false
  IsInstalled : Int := 0
  IsRenting : Int := 0
  IsReturning : Int := 0
  LastReported : Int := 0
  NumBikesAvailable : Int := 0
  NumBikesDisabled : Int := 0
  NumDocksAvailable : Int := 0
  NumDocksDisabled : Int := 0
  NumEbikesAvailable : Int := 0
  ID : String := ""
deriving DecidableEq, Repr

/-- The Go zero value of `StationStatus`: what `stations[id]` yields when
`id` is absent from the map. -/
def zeroStationStatus : StationStatus := {}

/-- The `Data` member of the response envelope:
`struct { Stations []StationStatus }`. -/
structure StationData where
  Stations : List StationStatus
deriving DecidableEq, Repr

/-- `type StationStatusResponse struct`.  The `LastUpdated` and `Ttl`
`float64` fields are never read by the program and are omitted from the
model (floating point is not modelled). -/
structure StationStatusResponse where
  Data : StationData
deriving DecidableEq, Repr

/-! ## Association lists: the model of Go maps and of `http.Header` -/

/-- Lookup in an association list (the model of Go map indexing; `none`
models `ok == false`). -/
def assocGet {α : Type} (m : List (String × α)) (k : String) : Option α :=
  match m with
  | [] => none
  | (k', v) :: rest => if k' = k then some v else assocGet rest k

/-- Update in an association list (the model of Go map assignment:
overwrite if present, append if absent). -/
def assocSet {α : Type} (m : List (String × α)) (k : String) (v : α) :
    List (String × α) :=
  match m with
  | [] => [(k, v)]
  | (k', v') :: rest =>
      if k' = k then (k, v) :: rest else (k', v') :: assocSet rest k v

theorem assocGet_set_eq {α : Type} (m : List (String × α)) (k : String)
    (v : α) : assocGet (assocSet m k v) k = some v := by
  induction m with
  | nil => simp [assocGet, assocSet]
  | cons hd tl ih =>
      obtain ⟨k', v'⟩ := hd
      by_cases h : k' = k
      · simp [assocGet, assocSet, h]
      · simp [assocGet, assocSet, h, ih]

theorem assocGet_set_ne {α : Type} (m : List (String × α)) (k k' : String)
    (v : α) (h : k ≠ k') : assocGet (assocSet m k v) k' = assocGet m k' := by
  induction m with
  | nil => simp [assocGet, assocSet, h]
  | cons hd tl ih =>
      obtain ⟨k₀, v₀⟩ := hd
      by_cases h₀ : k₀ = k
      · subst h₀
        simp [assocGet, assocSet, h]
      · by_cases h₁ : k₀ = k'
        · subst h₁
          have hne : ¬k₀ = k := h₀
          simp [assocGet, assocSet, hne]
        · simp [assocGet, assocSet, h₀, h₁, ih]

/-! ## The map-building loop and the join -/

/-- The loop in `index` that fills `stations := make(map[string]StationStatus)`:
`for _, sta := range resp.Data.Stations { stations[sta.ID] = sta }`.
Later records with the same ID overwrite earlier ones. -/
def buildStations (feed : List StationStatus) : List (String × StationStatus) :=
  feed.foldl (fun m sta => assocSet m sta.ID sta) []

/-- The last record of `feed` whose `ID` is `id` (`none` when there is
none): the value a Go map built by the `index` loop associates to `id`. -/
def lastMatch (feed : List StationStatus) (id : String) : Option StationStatus :=
  feed.foldl (fun acc sta => if sta.ID = id then some sta else acc) none

theorem buildStations_get (feed : List StationStatus) (id : String) :
    assocGet (buildStations feed) id = lastMatch feed id := by
  suffices h : ∀ (m : List (String × StationStatus)) (acc : Option StationStatus),
      assocGet m id = acc →
      assocGet (feed.foldl (fun m sta => assocSet m sta.ID sta) m) id =
        feed.foldl (fun acc sta => if sta.ID = id then some sta else acc) acc by
    exact h [] none rfl
  induction feed with
  | nil => intro m acc h; simpa [List.foldl] using h
  | cons sta rest ih =>
      intro m acc h
      simp only [List.foldl]
      apply ih
      by_cases hid : sta.ID = id
      · subst hid
        simp [assocGet_set_eq]
      · rw [if_neg hid, assocGet_set_ne m sta.ID id sta hid, h]

/-- `func populateCounts(stations map[string]StationStatus) []Region`.
For each directory entry: look its ID up in the map; when absent
(`!ok`) set `CSSClass = red`; in either case `Count` becomes
`status.NumEbikesAvailable`, where `status` is the zero value when the ID
is absent. -/
def populateCounts (stations : List (String × StationStatus)) : List Region :=
  Regions.map fun r =>
    { r with Stations := r.Stations.map fun inf =>
        match assocGet stations inf.ID with
        | some status => { inf with Count := status.NumEbikesAvailable }
        | none => { inf with CSSClass := red,
                             Count := zeroStationStatus.NumEbikesAvailable } }

/-! ## `net/textproto` header-key canonicalization and `http.Header` -/

/-- ASCII lowercase of a single character (Go adds `0x20` to `A`-`Z`). -/
def asciiLower (c : Char) : Char :=
  if 65 ≤ c.toNat ∧ c.toNat ≤ 90 then Char.ofNat (c.toNat + 32) else c

/-- ASCII uppercase of a single character (Go subtracts `0x20` from `a`-`z`). -/
def asciiUpper (c : Char) : Char :=
  if 97 ≤ c.toNat ∧ c.toNat ≤ 122 then Char.ofNat (c.toNat - 32) else c

/-- `strings.ToLower`, modelled rune-by-rune with the ASCII case map.
The full Unicode simple case map agrees with this on every rune whose
lowercase form could occur in the program's only use, the `"curl/"`
prefix test. -/
def toLowerGo (s : String) : String := String.mk (s.toList.map asciiLower)

/-- Rune-list prefix test (first argument: the string, second: the
candidate prefix). -/
def hasPrefixChars : List Char → List Char → Bool
  | _, [] => true
  | [], _ :: _ => false
  | c :: cs, p :: ps => c == p && hasPrefixChars cs ps

/-- `strings.HasPrefix(s, pre)`. -/
def goHasLead (s pre : String) : Bool := hasPrefixChars s.toList pre.toList

/-- `textproto.validHeaderFieldByte`: letters, digits and the token
punctuation (codes 33, 35-39, 42, 43, 45, 46, 94, 95, 96, 124, 126). -/
def validHeaderFieldChar (c : Char) : Bool :=
  let n := c.toNat
  (48 ≤ n && n ≤ 57) || (65 ≤ n && n ≤ 90) || (97 ≤ n && n ≤ 122) ||
  n == 33 || (35 ≤ n && n ≤ 39) || n == 42 || n == 43 || n == 45 ||
  n == 46 || n == 94 || n == 95 || n == 96 || n == 124 || n == 126

/-- The per-character pass of `textproto.CanonicalMIMEHeaderKey`: uppercase
at the start and after each hyphen, lowercase elsewhere. -/
def canonChars (upper : Bool) : List Char → List Char
  | [] => []
  | c :: rest =>
      let c' := if upper then asciiUpper c else asciiLower c
      c' :: canonChars (c' == '-') rest

/-- `textproto.CanonicalMIMEHeaderKey`: a key containing a byte that is not
a valid header-field byte is returned unchanged. -/
def canonicalMIMEHeaderKey (s : String) : String :=
  if s.toList.all validHeaderFieldChar then
    String.mk (canonChars true s.toList)
  else s

/-- `http.Header.Set`: canonicalize the key and replace the whole value
list with the one-element list `[v]`. -/
def headerSet (h : List (String × List String)) (k v : String) :
    List (String × List String) :=
  assocSet h (canonicalMIMEHeaderKey k) [v]

/-- `http.Header.Get`: canonicalize the key, return the first value, or
`""` when the key is absent or its list empty. -/
def headerGet (h : List (String × List String)) (k : String) : String :=
  match assocGet h (canonicalMIMEHeaderKey k) with
  | some (v :: _) => v
  | _ => ""

/-- The components of `url.URL` that `newRequest` fills in. -/
structure URLRecord where
  Host : String
  Scheme : String
  Path : String
  RawQuery : String
deriving DecidableEq, Repr

/-- The fields of `*http.Request` the program touches. -/
structure Request where
  Method : String
  URL : URLRecord
  Header : List (String × List String)
  Body : String
  RemoteAddr : String
deriving DecidableEq, Repr

/-- `Request.UserAgent()` returns `r.Header.Get("User-Agent")`. -/
def Request.UserAgent (r : Request) : String := headerGet r.Header "User-Agent"

/-! ## The buffered `ResponseWriter` of the gateway adapter -/

/-- `type ResponseWriter struct { header http.Header; b bytes.Buffer;
statusCode int }`. -/
structure ResponseWriter where
  header : List (String × List String)
  b : String
  statusCode : Int
deriving DecidableEq, Repr

/-- `func newRespsonseWriter() *ResponseWriter`: a fresh header map with
`Content-Type: text/html` set and status `http.StatusOK = 200`. -/
def newRespsonseWriter : ResponseWriter :=
  { header := headerSet [] "Content-Type" "text/html", b := "", statusCode := 200 }

/-- `w.Header().Set(k, v)` on the buffered writer. -/
def ResponseWriter.setHeader (w : ResponseWriter) (k v : String) : ResponseWriter :=
  { w with header := headerSet w.header k v }

/-- `w.Write(p)`: append to the buffer (a `bytes.Buffer` write never fails). -/
def ResponseWriter.write (w : ResponseWriter) (p : String) : ResponseWriter :=
  { w with b := w.b ++ p }

/-- `w.WriteHeader(code)`: overwrite the stored status code. -/
def ResponseWriter.writeHeader (w : ResponseWriter) (code : Int) : ResponseWriter :=
  { w with statusCode := code }

/-- `events.APIGatewayProxyResponse` (the fields the program sets). -/
structure APIGatewayProxyResponse where
  StatusCode : Int
  Headers : List (String × String)
  Body : String
deriving DecidableEq, Repr

/-- `func (w *ResponseWriter) Response() events.APIGatewayProxyResponse`:
for each header key with a nonempty value list, keep its first value;
body and status are copied. -/
def ResponseWriter.Response (w : ResponseWriter) : APIGatewayProxyResponse :=
  { StatusCode := w.statusCode,
    Headers := w.header.filterMap fun kv =>
      match kv.2 with
      | [] => none
      | v :: _ => some (kv.1, v),
    Body := w.b }

/-- `http.Error(w, error, code)`: set `Content-Type` to
`text/plain; charset=utf-8` and `X-Content-Type-Options` to `nosniff`,
write the status code, then `Fprintln` the message.  (The `Content-Length`
deletion is dropped: the model never sets that key.) -/
def httpError (w : ResponseWriter) (error : String) (code : Int) : ResponseWriter :=
  ((((w.setHeader "Content-Type" "text/plain; charset=utf-8").setHeader
      "X-Content-Type-Options" "nosniff").writeHeader code).write (error ++ "\n"))

/-! ## The gateway event and `newRequest` -/

/-- `req.RequestContext.Identity` (only `SourceIP` is read). -/
structure RequestIdentity where
  SourceIP : String
deriving DecidableEq, Repr

/-- `req.RequestContext`. -/
structure RequestContext where
  Identity : RequestIdentity
deriving DecidableEq, Repr

/-- `events.APIGatewayProxyRequest` (the fields the program reads).  The
Go `map[string]string` fields are association lists with unique keys. -/
structure APIGatewayProxyRequest where
  HTTPMethod : String
  Path : String
  QueryStringParameters : List (String × String)
  Headers : List (String × String)
  Body : String
  RequestContext : RequestContext
deriving DecidableEq, Repr

/-- Go `map[string]string` indexing: the zero value `""` when absent. -/
def lookupStr (m : List (String × String)) (k : String) : String :=
  (assocGet m k).getD ""

/-- The method defaulting at the top of `http.NewRequest`:
`if method == "" { method = "GET" }`. -/
def goDefaultMethod (m : String) : String := if m = "" then "GET" else m

/-- `net/http`'s `validMethod`: the method is nonempty and every rune is
an RFC 7230 token rune — the same table as `validHeaderFieldChar`
(`httpguts.IsTokenRune`; runes ≥ 0x80 are not tokens).  `http.NewRequest`
returns an error for a method this rejects. -/
def goValidMethod (m : String) : Bool :=
  !m.toList.isEmpty && m.toList.all validHeaderFieldChar

/-- `func newRequest(req events.APIGatewayProxyRequest) *http.Request`.
The result is `none` when the source panics, `some` when it returns.

`params` is declared `var params url.Values` and never initialized: it is
the nil map, so `params.Set(k, v)` — a map assignment — panics on the
first iteration of the loop over `QueryStringParameters`.  With no
parameters the loop body never runs and `params.Encode()` on the nil map
returns `""`.

A non-nil error from `http.NewRequest(req.HTTPMethod, u.String(), body)`
is re-raised by `panic(err)` in the source.  `NewRequest` errors in
exactly two cases: the defaulted method fails `validMethod`, modelled
exactly by `goValidMethod`, or `url.Parse` rejects the printed URL
`u.String()`.  The latter verdict is a pure function of the event's
`Host` and `X-Forwarded-Proto` headers and `Path` (for instance a `Host`
of `"a b"` prints as `//a%20b/…`, whose host `net/url` refuses to
unescape); its internals are not reproduced here, so it is passed in as
the oracle argument `urlParses`.

The loop `for k, v := range req.Headers` runs in the event list's order
(Go map iteration order is unspecified; event header keys are unique). -/
def newRequest (urlParses : Bool) (req : APIGatewayProxyRequest) : Option Request :=
  match req.QueryStringParameters with
  | _ :: _ => none
  | [] =>
      if goValidMethod (goDefaultMethod req.HTTPMethod) = false then none
      else if urlParses = false then none
      else
        let u : URLRecord :=
          { Host := lookupStr req.Headers "Host",
            Scheme := lookupStr req.Headers "X-Forwarded-Proto",
            Path := req.Path,
            RawQuery := "" }
        some { Method := goDefaultMethod req.HTTPMethod,
               URL := u,
               Header := req.Headers.foldl (fun h kv => headerSet h kv.1 kv.2) [],
               Body := req.Body,
               RemoteAddr := req.RequestContext.Identity.SourceIP }

/-! ## The plain-text renderer -/

/-- The Go `fmt` verb `%W.Ps` applied to a string: truncate to `prec`
runes, then left-pad with spaces to `width` runes. -/
def fmtStringWP (width prec : Nat) (s : String) : String :=
  let t := String.mk (s.toList.take prec)
  String.mk (List.replicate (width - t.length) ' ') ++ t

/-- One `fmt.Fprintf(w, "%12.12s %25.25s %d\n", r.Name, s.Name, s.Count)`
line of the plain-text output (`%d` on `Int` prints a decimal, with a
leading minus sign when negative, exactly as `toString`). -/
def plainLine (regionName : String) (s : StationInfo) : String :=
  fmtStringWP 12 12 regionName ++ " " ++ fmtStringWP 25 25 s.Name ++ " " ++
    toString s.Count ++ "\n"

/-- The double loop of the plain-text branch of `index`. -/
def plainBody (regions : List Region) : String :=
  String.join (regions.map fun r =>
    String.join (r.Stations.map fun s => plainLine r.Name s))

/-! ## The HTML template

`tmpl` is `template.Must(template.New("html").Parse(tmplText))` from
`html/template`.  Its static text is reproduced below, split at the
`range` and field actions; interpolated values pass through the
html escaper (`<`, `>`, `&`, the apostrophe and the double quote become
entities; a NUL byte becomes U+FFFD).  Execution writes text as it goes;
a value error — here only the `makeslice` panic inside `Bars`, which
`text/template`'s `safeCall` recovers and turns into an `Execute`
error — stops execution at that node, leaving the partial output
written. -/

/-- The html escaper applied by the template to interpolated values. -/
def htmlEscapeChar (c : Char) : String :=
  if c == Char.ofNat 0 then "�"
  else if c == '<' then "&lt;"
  else if c == '>' then "&gt;"
  else if c == '&' then "&amp;"
  else if c == Char.ofNat 39 then "&#39;"
  else if c == Char.ofNat 34 then "&#34;"
  else String.singleton c

def htmlEscape (s : String) : String := String.join (s.toList.map htmlEscapeChar)

/-- Template text from the start up to `{{range .Regions}}`. -/
def tmplHeader : String :=
  "\n<!DOCTYPE html>\n<html>\n\t<head>\n\t\t<meta charset=\"UTF-8\">\n    <meta name=\"viewport\" content=\"width=device-width, initial-scale=1\">\n\t\t<title>Ebike status</title>\n    <style>\n      .green \x7b background-color: green; \x7d\n      .yellow \x7b background-color: yellow; \x7d\n      .red \x7b background-color: red; \x7d\n      .bar \x7b\n        display: inline-block;\n        width: .25em;\n        height: 1em;\n        background-color: green;\n        margin-right: .25em;\n        float: right;\n      \x7d\n      .row-pad \x7b\n        padding-top: 12px;\n        padding-bottom: 12px;\n      \x7d\n    </style>\n    <link rel=\"stylesheet\" href=\"https://stackpath.bootstrapcdn.com/bootstrap/4.1.1/css/bootstrap.min.css\" integrity=\"sha384-WskhaSGFgHYWDcbwN70/dfYBj47jz9qbsMId/iRN3ewGhXQFZCSftd1LZCfmhktB\" crossorigin=\"anonymous\">\n\t</head>\n\t<body>\n    <main class=\"py-md-3\">\n    "

/-- Region body text before `{{.Name}}`. -/
def regionTxt1 : String := "\n      <div class=\"container\">\n\t    <h2>"

/-- Region body text between `{{.Name}}` and `{{range .Stations}}`. -/
def regionTxt2 : String := ":</h2>\n\t    <div class=\"table\">\n\t    "

/-- Station row text before `{{.CSSClass}}`. -/
def stationTxt1 : String := "\n\t      <div class=\""

/-- Station row text between `{{.CSSClass}}` and `{{.ID}}`. -/
def stationTxt2 : String := " row row-pad border-top\"><div class=\"col\">"

/-- Station row text between `{{.ID}}` and `{{.Name}}`, and again between
`{{.Name}}` and `{{range .Bars}}` (the two chunks are identical). -/
def stationTxt3 : String := "</div><div class=\"col\">"

/-- The body of `{{range .Bars}}`. -/
def barTxt : String := "<div class=bar></div>"

/-- Station row text after the bars, up to the stations `{{end}}`. -/
def stationTxt4 : String := "</div></div>\n\t    "

/-- Region body text after the stations `{{end}}`, up to the regions
`{{end}}`. -/
def regionTxt3 : String := "\n\t    </div>\n\t    </div>\n\t  "

/-- Text after the regions `{{end}}`, up to `{{.EbikeCount}}`. -/
def tmplFooter1 : String :=
  "\n      <br><br>\n      <div class=\"container\">\n\t    <h4>SystemInfo:</h4>\n      <div class=table>\n      <div class=\"row row-pad border-top\"><div class=col>Available E-bikes:</div><div class=col>"

/-- Text between `{{.EbikeCount}}` and `{{.ClassicCount}}`. -/
def tmplFooter2 : String :=
  "</div><div class=\"col\"></div></div>\n      <div class=\"row row-pad border-top\"><div class=col>Available Classic Bikes:</div><div class=col>"

/-- Text after `{{.ClassicCount}}` to the end of the template. -/
def tmplFooter3 : String :=
  "</div><div class=\"col\"></div></div>\n      </div>\n      </div>\n    </main>\n\t</body>\n</html>"

/-- `type TmplData struct`. -/
structure TmplData where
  Regions : List Region
  EbikeCount : Int
  ClassicCount : Int
deriving DecidableEq, Repr

/-- One iteration of `{{range .Stations}}`: accumulated output paired with
a success flag; once execution has failed nothing more is written.
Evaluating `.Bars` on a station with negative `Count` is the error
point: the text before it (class, ID, name) is already written. -/
def execStation (acc : String × Bool) (s : StationInfo) : String × Bool :=
  if acc.2 = false then acc else
  let out := acc.1 ++ stationTxt1 ++ htmlEscape s.CSSClass ++ stationTxt2 ++
             htmlEscape s.ID ++ stationTxt3 ++ htmlEscape s.Name ++ stationTxt3
  match s.Bars with
  | none => (out, false)
  | some bars => (out ++ String.join (bars.map fun _ => barTxt) ++ stationTxt4, true)

/-- One iteration of `{{range .Regions}}`. -/
def execRegion (acc : String × Bool) (r : Region) : String × Bool :=
  if acc.2 = false then acc else
  let acc := (acc.1 ++ regionTxt1 ++ htmlEscape r.Name ++ regionTxt2, true)
  let acc := r.Stations.foldl execStation acc
  if acc.2 then (acc.1 ++ regionTxt3, true) else acc

/-- `tmpl.Execute` on `d`: the output written so far, paired with `true`
when execution completed without error. -/
def execTemplate (d : TmplData) : String × Bool :=
  let acc := d.Regions.foldl execRegion (tmplHeader, true)
  if acc.2 then
    (acc.1 ++ tmplFooter1 ++ htmlEscape (toString d.EbikeCount) ++ tmplFooter2 ++
       htmlEscape (toString d.ClassicCount) ++ tmplFooter3, true)
  else acc

/-! ## The handler -/

/-- The outcome of the two fallible external steps at the top of `index`:
the upstream `http.Get` and the JSON decode of its body.  Both are
deterministic in the upstream response bytes. -/
inductive FetchOutcome where
  /-- `http.Get(stationURL)` returned a non-nil error. -/
  | getFailed
  /-- The GET succeeded but `dec.Decode(&resp)` returned a non-nil error. -/
  | decodeFailed
  /-- The GET succeeded and the body decoded into `resp`. -/
  | ok (resp : StationStatusResponse)
deriving DecidableEq, Repr

/-- The branch condition of `index`:
`r.Header.Get("Accept") == "text/plain" || strings.HasPrefix(ua, "curl/")`
with `ua := strings.ToLower(r.UserAgent())`. -/
def plainChoice (r : Request) : Bool :=
  headerGet r.Header "Accept" == "text/plain" ||
    goHasLead (toLowerGo (Request.UserAgent r)) "curl/"

/-- The values `index` computes from the decoded response: the two
system-wide sums accumulated in the map-building loop and the joined
regions (`regions := populateCounts(stations)`), packaged as the
template data.  (Go `int` wraparound of the sums is not modelled; no
property proved here depends on them.) -/
def tmplDataOf (resp : StationStatusResponse) : TmplData :=
  { Regions := populateCounts (buildStations resp.Data.Stations),
    EbikeCount :=
      resp.Data.Stations.foldl (fun acc sta => acc + sta.NumEbikesAvailable) 0,
    ClassicCount :=
      resp.Data.Stations.foldl (fun acc sta => acc + sta.NumBikesAvailable) 0 }

/-- `func index(w http.ResponseWriter, r *http.Request)`, with the two
external steps summarized by `fetch` and the writer threaded as state.
On a fetch or decode error: `http.Error(w, "Get Status Failed", 500)`.
Otherwise render plain text or execute the template; a template
execution error is answered by `http.Error(w, "Template Error", 500)`
after the partial output already written. -/
def index (fetch : FetchOutcome) (r : Request) (w : ResponseWriter) : ResponseWriter :=
  match fetch with
  | .getFailed => httpError w "Get Status Failed" 500
  | .decodeFailed => httpError w "Get Status Failed" 500
  | .ok resp =>
      if plainChoice r then
        (w.setHeader "Content-Type" "text/plain").write
          (plainBody (tmplDataOf resp).Regions)
      else
        let res := execTemplate (tmplDataOf resp)
        if res.2 then w.write res.1
        else httpError (w.write res.1) "Template Error" 500

/-- `func AWSHandler(ctx, req)`: build the buffered writer and the request,
run `index`, return `w.Response()`.  `none` models the `newRequest` panic
propagating out of the handler; `urlParses` is threaded to `newRequest`. -/
def AWSHandler (urlParses : Bool) (fetch : FetchOutcome)
    (req : APIGatewayProxyRequest) : Option APIGatewayProxyResponse :=
  (newRequest urlParses req).map fun r => (index fetch r newRespsonseWriter).Response

/-! ## Structural lemmas about the join -/

/-- Every station of the static directory has the empty string as its
compile-time `CSSClass` (the Go zero value). -/
theorem regionsCSSEmpty : ∀ r₀ ∈ Regions, ∀ inf ∈ r₀.Stations, inf.CSSClass = "" := by
  decide

/-- A station of the `populateCounts` output whose ID is found in the map
keeps the directory `CSSClass` (the empty string) and copies the found
record's `NumEbikesAvailable` into `Count`. -/
theorem populateCounts_present (stations : List (String × StationStatus))
    (r : Region) (s : StationInfo) (hr : r ∈ populateCounts stations)
    (hs : s ∈ r.Stations) (status : StationStatus)
    (hlook : assocGet stations s.ID = some status) :
    s.CSSClass = "" ∧ s.Count = status.NumEbikesAvailable := by
  simp only [populateCounts, List.mem_map] at hr
  rcases hr with ⟨r₀, hr₀, hfr⟩
  subst hfr
  dsimp only at hs
  rcases List.mem_map.mp hs with ⟨inf, hinf, hgi⟩
  rcases hcase : assocGet stations inf.ID with _ | status'
  · rw [hcase] at hgi
    subst hgi
    dsimp only at hlook
    rw [hcase] at hlook
    cases hlook
  · rw [hcase] at hgi
    subst hgi
    dsimp only at hlook ⊢
    rw [hcase] at hlook
    cases hlook
    exact ⟨regionsCSSEmpty r₀ hr₀ inf hinf, rfl⟩

/-- A station of the `populateCounts` output whose ID is absent from the
map is assigned `CSSClass = red` and the zero-value count `0`. -/
theorem populateCounts_absent (stations : List (String × StationStatus))
    (r : Region) (s : StationInfo) (hr : r ∈ populateCounts stations)
    (hs : s ∈ r.Stations) (hlook : assocGet stations s.ID = none) :
    s.CSSClass = red ∧ s.Count = 0 := by
  simp only [populateCounts, List.mem_map] at hr
  rcases hr with ⟨r₀, hr₀, hfr⟩
  subst hfr
  dsimp only at hs
  rcases List.mem_map.mp hs with ⟨inf, hinf, hgi⟩
  rcases hcase : assocGet stations inf.ID with _ | status'
  · rw [hcase] at hgi
    subst hgi
    simp [zeroStationStatus]
  · rw [hcase] at hgi
    subst hgi
    dsimp only at hlook
    rw [hcase] at hlook
    cases hlook

/-- `lastMatch` ignores the accumulator when some record matches, and
returns the accumulator when none does. -/
theorem lastMatch_foldl_acc (feed : List StationStatus) (id : String) :
    ∀ acc : Option StationStatus,
      feed.foldl (fun acc sta => if sta.ID = id then some sta else acc) acc =
        match lastMatch feed id with
        | some rec => some rec
        | none => acc := by
  induction feed with
  | nil => intro acc; simp [lastMatch]
  | cons sta rest ih =>
      intro acc
      simp only [lastMatch, List.foldl] at *
      by_cases h : sta.ID = id
      · simp only [if_pos h]
        rw [ih (some sta)]
        cases rest.foldl (fun acc sta => if sta.ID = id then some sta else acc) none <;>
          rfl
      · simp only [if_neg h]
        rw [ih acc]

/-- When no record of the feed carries `id`, `lastMatch` finds nothing. -/
theorem lastMatch_none (feed : List StationStatus) (id : String)
    (h : ∀ rec ∈ feed, rec.ID ≠ id) : lastMatch feed id = none := by
  induction feed with
  | nil => rfl
  | cons sta rest ih =>
      have hsta : sta.ID ≠ id := h sta (List.mem_cons_self sta rest)
      have hrest : ∀ rec ∈ rest, rec.ID ≠ id := fun rec hrec =>
        h rec (List.mem_cons_of_mem sta hrec)
      simp only [lastMatch, List.foldl, if_neg hsta]
      exact ih hrest

/-- When exactly one record of the feed carries `id`, `lastMatch` finds
that record. -/
theorem lastMatch_unique (feed : List StationStatus) (id : String)
    (rec : StationStatus)
    (h : feed.filter (fun st => st.ID == id) = [rec]) :
    lastMatch feed id = some rec := by
  induction feed with
  | nil => simp [List.filter] at h
  | cons sta rest ih =>
      by_cases hsta : sta.ID = id
      · have hb : (sta.ID == id) = true := by simp [hsta]
        have hfil : (sta :: rest).filter (fun st => st.ID == id) =
            sta :: rest.filter (fun st => st.ID == id) := by
          simp [List.filter, hb]
        rw [hfil] at h
        have hhead : sta = rec := by
          cases hrest : rest.filter (fun st => st.ID == id) with
          | nil => rw [hrest] at h; exact (List.cons.injEq _ _ _ _ ▸ h).1
          | cons a l =>
              rw [hrest] at h
              have := congrArg List.length h
              simp at this
        have hrestnil : rest.filter (fun st => st.ID == id) = [] := by
          cases hrest : rest.filter (fun st => st.ID == id) with
          | nil => rfl
          | cons a l =>
              rw [hrest] at h
              have := congrArg List.length h
              simp at this
        have hnone : lastMatch rest id = none := by
          apply lastMatch_none
          intro r hr hrid
          have : r ∈ rest.filter (fun st => st.ID == id) :=
            List.mem_filter.mpr ⟨hr, by simp [hrid]⟩
          rw [hrestnil] at this
          cases this
        subst hhead
        simp only [lastMatch, List.foldl, if_pos hsta]
        rw [lastMatch_foldl_acc rest id (some sta), hnone]
      · have hb : (sta.ID == id) = false := by simp [hsta]
        have hfil : (sta :: rest).filter (fun st => st.ID == id) =
            rest.filter (fun st => st.ID == id) := by
          simp [List.filter, hb]
        rw [hfil] at h
        simp only [lastMatch, List.foldl, if_neg hsta]
        exact ih h

/-! ## Claim theorems: the join (C1, C3, C5, C8) -/

/-- The feed used by concrete counterexamples and witnesses: a single
record for station `"22"` reporting five available e-bikes. -/
def feed22 : List StationStatus := [{ ID := "22", NumEbikesAvailable := 5 }]

/-- Claim C1 (counterexample).  Station `"22"` is in the static directory
and present in the fetched feed with count `5`, yet the `CSSClass`
rendered for it is the empty string — not `green`, `yellow` or `red`, and
not computed from the count: `populateCounts` never classifies counts
into a tier (the `green`/`yellow` constants are never assigned). -/
theorem c1_no_tier_counterexample :
    (populateCounts (buildStations feed22)).head?.bind (fun r => r.Stations.head?) =
      some { ID := "22", Name := "Howard St at Beale St", Count := 5, CSSClass := "" }
    ∧ ("" : color) ≠ green ∧ ("" : color) ≠ yellow ∧ ("" : color) ≠ red := by
  refine ⟨rfl, ?_, ?_, ?_⟩ <;> decide

/-- Claim C1 (amended).  The handler computes no color tier from the
availability count: a directory station whose ID is present in the
fetched feed keeps the directory's empty `CSSClass` whatever its count,
and `red` is assigned exactly to the stations whose ID is absent. -/
theorem c1_no_tier_amended (stations : List (String × StationStatus))
    (r : Region) (s : StationInfo) (hr : r ∈ populateCounts stations)
    (hs : s ∈ r.Stations) :
    (∀ status, assocGet stations s.ID = some status → s.CSSClass = "") ∧
    (assocGet stations s.ID = none → s.CSSClass = red) := by
  constructor
  · intro status hlook
    exact (populateCounts_present stations r s hr hs status hlook).1
  · intro hlook
    exact (populateCounts_absent stations r s hr hs hlook).1

/-- The first output region of `populateCounts` over the `feed22` map. -/
def rOut22 : Region :=
  (populateCounts (buildStations feed22)).headD { Name := "", Stations := [] }

/-- The first station of `rOut22` (station `"22"`, present in `feed22`). -/
def sOut22 : StationInfo := rOut22.Stations.headD { ID := "", Name := "" }

/-- The second station of `rOut22` (station `"17"`, absent from `feed22`). -/
def sOut17 : StationInfo :=
  (rOut22.Stations.drop 1).headD { ID := "", Name := "" }

theorem c1_no_tier_amended_witness :
    (rOut22 ∈ populateCounts (buildStations feed22)
      ∧ sOut22 ∈ rOut22.Stations
      ∧ assocGet (buildStations feed22) sOut22.ID =
          some { ID := "22", NumEbikesAvailable := 5 })
    ∧ sOut22.CSSClass = "" := by
  refine ⟨⟨by decide, by decide, by decide⟩, ?_⟩
  exact (c1_no_tier_amended (buildStations feed22) rOut22 sOut22
    (by decide) (by decide)).1 { ID := "22", NumEbikesAvailable := 5 } (by decide)

/-- Claim C3.  A directory station whose ID is absent from the set of
station IDs of the fetched feed is assigned the red color tier by
`populateCounts`. -/
theorem c3_absent_red (stations : List (String × StationStatus))
    (r : Region) (s : StationInfo) (hr : r ∈ populateCounts stations)
    (hs : s ∈ r.Stations) (hlook : assocGet stations s.ID = none) :
    s.CSSClass = red :=
  (populateCounts_absent stations r s hr hs hlook).1

theorem c3_absent_red_witness :
    (sOut17 ∈ rOut22.Stations
      ∧ assocGet (buildStations feed22) sOut17.ID = none)
    ∧ sOut17.CSSClass = red := by
  refine ⟨⟨by decide, by decide⟩, ?_⟩
  exact c3_absent_red (buildStations feed22) rOut22 sOut17
    (by decide) (by decide) (by decide)

/-- Claim C5.  The join is keyed by station ID: a rendered station's
`Count` is the `num_ebikes_available` of the unique feed record whose
`station_id` equals the directory entry's ID, and `0` when no feed
record carries that ID. -/
theorem c5_join_by_id (feed : List StationStatus) (r : Region) (s : StationInfo)
    (hr : r ∈ populateCounts (buildStations feed)) (hs : s ∈ r.Stations) :
    (∀ rec : StationStatus, feed.filter (fun st => st.ID == s.ID) = [rec] →
       s.Count = rec.NumEbikesAvailable)
    ∧ ((∀ rec ∈ feed, rec.ID ≠ s.ID) → s.Count = 0) := by
  constructor
  · intro rec hfil
    have hlook : assocGet (buildStations feed) s.ID = some rec := by
      rw [buildStations_get]
      exact lastMatch_unique feed s.ID rec hfil
    exact (populateCounts_present (buildStations feed) r s hr hs rec hlook).2
  · intro habs
    have hlook : assocGet (buildStations feed) s.ID = none := by
      rw [buildStations_get]
      exact lastMatch_none feed s.ID habs
    exact (populateCounts_absent (buildStations feed) r s hr hs hlook).2

theorem c5_join_by_id_witness :
    (feed22.filter (fun st => st.ID == sOut22.ID) =
        [{ ID := "22", NumEbikesAvailable := 5 }]
      ∧ (∀ rec ∈ feed22, rec.ID ≠ sOut17.ID))
    ∧ sOut22.Count = 5 ∧ sOut17.Count = 0 := by
  refine ⟨⟨by decide, by decide⟩, ?_, ?_⟩
  · exact (c5_join_by_id feed22 rOut22 sOut22 (by decide) (by decide)).1
      { ID := "22", NumEbikesAvailable := 5 } (by decide)
  · exact (c5_join_by_id feed22 rOut22 sOut17 (by decide) (by decide)).2 (by decide)

/-- Claim C8.  `populateCounts` returns a fresh slice (the source writes
only into copies), preserving the directory's region order and names,
and each region's station order, IDs and names — only `Count` and
`CSSClass` differ from the directory values. -/
theorem c8_directory_preserved (stations : List (String × StationStatus)) :
    (populateCounts stations).map
        (fun r => (r.Name, r.Stations.map fun s => (s.ID, s.Name))) =
      Regions.map (fun r => (r.Name, r.Stations.map fun s => (s.ID, s.Name))) := by
  simp only [populateCounts, List.map_map]
  apply List.map_congr_left
  intro r₀ _
  simp only [Function.comp]
  congr 1
  rw [List.map_map]
  apply List.map_congr_left
  intro inf _
  rcases hcase : assocGet stations inf.ID with _ | status <;>
    simp [hcase, Function.comp]

/-! ## Claim theorems: the nil query-parameter map (C2) -/

/-- A concrete gateway event with one query-string parameter. -/
def eventWithParam : APIGatewayProxyRequest :=
  { HTTPMethod := "GET", Path := "/", QueryStringParameters := [("a", "b")],
    Headers := [("Host", "example.org")], Body := "",
    RequestContext := { Identity := { SourceIP := "10.0.0.1" } } }

/-- The same event with no query-string parameters. -/
def eventNoParam : APIGatewayProxyRequest :=
  { eventWithParam with QueryStringParameters := [] }

/-- The same event with no query-string parameters and the method
`"A B"` — the space is not an RFC 7230 token rune. -/
def eventBadMethod : APIGatewayProxyRequest :=
  { eventNoParam with HTTPMethod := "A B" }

/-- Claim C2 (counterexample).  An event with no query-string parameters
for which `newRequest` nevertheless panics: its method `"A B"` contains
a space, which is not a token rune, so `http.NewRequest` returns the
error `net/http: invalid method`, re-raised by `panic(err)` — although
the nil `params` map was never touched.  (The composed URL
`//example.org/` parses, so the oracle is `true`.) -/
theorem c2_no_param_panic_counterexample :
    eventBadMethod.QueryStringParameters = [] ∧
    newRequest true eventBadMethod = none := by
  exact ⟨rfl, by decide⟩

/-- Claim C2 (amended).  An event with at least one query-string
parameter makes `newRequest` (and hence `AWSHandler`) panic — the loop
assigns into the never-initialized nil `url.Values` map.  For an event
with no query-string parameters the nil map is harmless, but
`newRequest` still panics — through `panic(err)` — when `http.NewRequest`
rejects the event: when the defaulted method contains a non-token rune,
or when `url.Parse` rejects the URL printed from the event's headers and
path; in every other case it returns a request without panicking. -/
theorem c2_nil_params_amended (urlParses : Bool) (req : APIGatewayProxyRequest) :
    (req.QueryStringParameters ≠ [] →
       newRequest urlParses req = none ∧
       ∀ fetch, AWSHandler urlParses fetch req = none)
    ∧ (req.QueryStringParameters = [] →
        (goValidMethod (goDefaultMethod req.HTTPMethod) = false →
           newRequest urlParses req = none)
        ∧ (urlParses = false → newRequest urlParses req = none)
        ∧ (goValidMethod (goDefaultMethod req.HTTPMethod) = true →
           urlParses = true → (newRequest urlParses req).isSome = true)) := by
  constructor
  · intro hne
    cases hq : req.QueryStringParameters with
    | nil => exact absurd hq hne
    | cons p rest =>
        have hreq : newRequest urlParses req = none := by
          simp [newRequest, hq]
        exact ⟨hreq, fun fetch => by simp [AWSHandler, hreq]⟩
  · intro hq
    refine ⟨?_, ?_, ?_⟩
    · intro hm
      simp [newRequest, hq, hm]
    · intro hu
      simp [newRequest, hq, hu]
    · intro hm hu
      simp [newRequest, hq, hm, hu]

theorem c2_nil_params_amended_witness :
    (eventWithParam.QueryStringParameters ≠ [] ∧
       newRequest true eventWithParam = none ∧
       AWSHandler true FetchOutcome.getFailed eventWithParam = none)
    ∧ (eventNoParam.QueryStringParameters = [] ∧
       goValidMethod (goDefaultMethod eventNoParam.HTTPMethod) = true ∧
       (newRequest true eventNoParam).isSome = true)
    ∧ (goValidMethod (goDefaultMethod eventBadMethod.HTTPMethod) = false ∧
       newRequest true eventBadMethod = none) := by
  refine ⟨⟨by decide, ?_, ?_⟩, ⟨rfl, by decide, ?_⟩, ⟨by decide, ?_⟩⟩
  · exact ((c2_nil_params_amended true eventWithParam).1 (by decide)).1
  · exact ((c2_nil_params_amended true eventWithParam).1 (by decide)).2
      FetchOutcome.getFailed
  · exact ((c2_nil_params_amended true eventNoParam).2 rfl).2.2 (by decide) rfl
  · exact ((c2_nil_params_amended true eventBadMethod).2 rfl).1 (by decide)

/-! ## Success and failure of template execution -/

/-- Once station rendering has failed, it stays failed. -/
theorem execStation_fold_false (l : List StationInfo) (acc : String × Bool)
    (h : acc.2 = false) : (l.foldl execStation acc).2 = false := by
  induction l generalizing acc with
  | nil => exact h
  | cons a rest ih =>
      simp only [List.foldl]
      exact ih _ (by simp [execStation, h])

/-- A station with a negative count fails the station loop. -/
theorem execStation_fold_neg (l : List StationInfo) (acc : String × Bool)
    (s : StationInfo) (hs : s ∈ l) (hneg : s.Count < 0) :
    (l.foldl execStation acc).2 = false := by
  induction l generalizing acc with
  | nil => cases hs
  | cons a rest ih =>
      simp only [List.foldl]
      rcases List.mem_cons.mp hs with rfl | hmem
      · by_cases hacc : acc.2 = false
        · exact execStation_fold_false rest _ (by simp [execStation, hacc])
        · apply execStation_fold_false
          simp [execStation, hacc, StationInfo.Bars, hneg]
      · exact ih _ hmem

/-- With nonnegative counts only, the station loop keeps succeeding. -/
theorem execStation_fold_nonneg (l : List StationInfo) (acc : String × Bool)
    (hnn : ∀ s ∈ l, 0 ≤ s.Count) (h : acc.2 = true) :
    (l.foldl execStation acc).2 = true := by
  induction l generalizing acc with
  | nil => exact h
  | cons a rest ih =>
      simp only [List.foldl]
      apply ih _ (fun s hs => hnn s (List.mem_cons_of_mem a hs))
      have ha : ¬a.Count < 0 := not_lt.mpr (hnn a (List.mem_cons_self a rest))
      simp [execStation, h, StationInfo.Bars, ha]

/-- Once region rendering has failed, it stays failed. -/
theorem execRegion_fold_false (rs : List Region) (acc : String × Bool)
    (h : acc.2 = false) : (rs.foldl execRegion acc).2 = false := by
  induction rs generalizing acc with
  | nil => exact h
  | cons r rest ih =>
      simp only [List.foldl]
      exact ih _ (by simp [execRegion, h])

/-- A region containing a station with a negative count fails the region
loop. -/
theorem execRegion_fold_neg (rs : List Region) (acc : String × Bool)
    (r : Region) (s : StationInfo) (hr : r ∈ rs) (hs : s ∈ r.Stations)
    (hneg : s.Count < 0) : (rs.foldl execRegion acc).2 = false := by
  induction rs generalizing acc with
  | nil => cases hr
  | cons a rest ih =>
      simp only [List.foldl]
      rcases List.mem_cons.mp hr with rfl | hmem
      · by_cases hacc : acc.2 = false
        · exact execRegion_fold_false rest _ (by simp [execRegion, hacc])
        · apply execRegion_fold_false
          have hfail := execStation_fold_neg r.Stations
            (acc.1 ++ regionTxt1 ++ htmlEscape r.Name ++ regionTxt2, true) s hs hneg
          simp [execRegion, hacc, hfail]
      · exact ih _ hmem

/-- With nonnegative counts only, the region loop keeps succeeding. -/
theorem execRegion_fold_nonneg (rs : List Region) (acc : String × Bool)
    (hnn : ∀ r ∈ rs, ∀ s ∈ r.Stations, 0 ≤ s.Count) (h : acc.2 = true) :
    (rs.foldl execRegion acc).2 = true := by
  induction rs generalizing acc with
  | nil => exact h
  | cons a rest ih =>
      simp only [List.foldl]
      apply ih _ (fun r hr => hnn r (List.mem_cons_of_mem a hr))
      have hok := execStation_fold_nonneg a.Stations
        (acc.1 ++ regionTxt1 ++ htmlEscape a.Name ++ regionTxt2, true)
        (hnn a (List.mem_cons_self a rest)) rfl
      simp [execRegion, h, hok]

/-- Template execution fails whenever some rendered station has a
negative count. -/
theorem execTemplate_neg (d : TmplData)
    (hx : ∃ r ∈ d.Regions, ∃ s ∈ r.Stations, s.Count < 0) :
    (execTemplate d).2 = false := by
  rcases hx with ⟨r, hr, s, hs, hneg⟩
  have h2 := execRegion_fold_neg d.Regions (tmplHeader, true) r s hr hs hneg
  simp [execTemplate, h2]

/-- Template execution succeeds whenever every rendered count is
nonnegative. -/
theorem execTemplate_nonneg (d : TmplData)
    (hnn : ∀ r ∈ d.Regions, ∀ s ∈ r.Stations, 0 ≤ s.Count) :
    (execTemplate d).2 = true := by
  have h2 := execRegion_fold_nonneg d.Regions (tmplHeader, true) hnn rfl
  simp [execTemplate, h2]

/-! ## Claim theorem: `Bars` on negative counts (C9) -/

/-- Claim C9.  For a nonnegative count, `Bars` returns a slice whose
length equals `Count`; for a negative count (possible when the feed
carries a negative `num_ebikes_available`) `Bars` panics — `none` — and
template rendering of any data containing such a station fails. -/
theorem c9_bars_length_panic (s : StationInfo) (d : TmplData) :
    (0 ≤ s.Count →
       (StationInfo.Bars s).map (fun l => (l.length : Int)) = some s.Count)
    ∧ (s.Count < 0 → StationInfo.Bars s = none)
    ∧ ((∃ r ∈ d.Regions, ∃ st ∈ r.Stations, st.Count < 0) →
       (execTemplate d).2 = false) := by
  refine ⟨?_, ?_, execTemplate_neg d⟩
  · intro h
    simp [StationInfo.Bars, not_lt.mpr h, Int.toNat_of_nonneg h]
  · intro h
    simp [StationInfo.Bars, h]

/-- A station direly reporting `-1` e-bikes, and template data holding it. -/
def sNeg : StationInfo := { ID := "9", Name := "Neg", Count := -1 }

def dNeg : TmplData :=
  { Regions := [{ Name := "R", Stations := [sNeg] }],
    EbikeCount := 0, ClassicCount := 0 }

def sPos : StationInfo := { ID := "8", Name := "Pos", Count := 3 }

theorem c9_bars_length_panic_witness :
    ((0 : Int) ≤ sPos.Count ∧ sNeg.Count < 0
      ∧ (∃ r ∈ dNeg.Regions, ∃ st ∈ r.Stations, st.Count < 0))
    ∧ (StationInfo.Bars sPos).map (fun l => (l.length : Int)) = some 3
    ∧ StationInfo.Bars sNeg = none
    ∧ (execTemplate dNeg).2 = false := by
  refine ⟨⟨by decide, by decide, by decide⟩, ?_, ?_, ?_⟩
  · exact (c9_bars_length_panic sPos dNeg).1 (by decide)
  · exact (c9_bars_length_panic sNeg dNeg).2.1 (by decide)
  · exact (c9_bars_length_panic sNeg dNeg).2.2 (by decide)

/-! ## Claim theorems: status codes (C4) and output format (C6) -/

/-- A request choosing neither `text/plain` nor a curl user agent. -/
def reqPlainOff : Request :=
  { Method := "GET", URL := { Host := "", Scheme := "", Path := "/", RawQuery := "" },
    Header := [], Body := "", RemoteAddr := "" }

/-- A request from curl (plain-text output chosen by user-agent prefix). -/
def reqCurl : Request :=
  { reqPlainOff with Header := headerSet [] "User-Agent" "curl/7.64.1" }

/-- A decodable feed holding only station `"22"` with five e-bikes. -/
def resp22 : StationStatusResponse := { Data := { Stations := feed22 } }

/-- A decodable feed reporting `-1` e-bikes at station `"22"`. -/
def respNeg : StationStatusResponse :=
  { Data := { Stations := [{ ID := "22", NumEbikesAvailable := -1 }] } }

/-- Claim C4 (counterexample).  The upstream GET and the JSON decode both
succeed (`FetchOutcome.ok respNeg`), yet the handler does not respond
with status 200: the decoded feed carries `num_ebikes_available = -1`
for directory station `"22"`, `Bars` fails inside template execution,
and the handler answers `http.Error(w, "Template Error", 500)`. -/
theorem c4_fetch_ok_not_200_counterexample :
    (index (FetchOutcome.ok respNeg) reqPlainOff newRespsonseWriter).statusCode ≠ 200 := by
  decide

/-- Claim C4 (amended).  A failed GET or a failed decode yields status
500 with the bare error message (the page is not rendered); when both
succeed, the handler responds 200 — except that, when HTML output is
chosen and some joined station count is negative, template execution
fails and the handler responds 500. -/
theorem c4_status_amended (fetch : FetchOutcome) (r : Request) :
    ((fetch = FetchOutcome.getFailed ∨ fetch = FetchOutcome.decodeFailed) →
       (index fetch r newRespsonseWriter).statusCode = 500 ∧
       (index fetch r newRespsonseWriter).b = "Get Status Failed\n")
    ∧ (∀ resp, fetch = FetchOutcome.ok resp →
        (plainChoice r = true →
           (index fetch r newRespsonseWriter).statusCode = 200)
        ∧ (plainChoice r = false →
            ((∀ rg ∈ (tmplDataOf resp).Regions, ∀ st ∈ rg.Stations, 0 ≤ st.Count) →
               (index fetch r newRespsonseWriter).statusCode = 200)
            ∧ ((∃ rg ∈ (tmplDataOf resp).Regions, ∃ st ∈ rg.Stations, st.Count < 0) →
               (index fetch r newRespsonseWriter).statusCode = 500))) := by
  constructor
  · rintro (rfl | rfl) <;> exact ⟨rfl, rfl⟩
  · rintro resp rfl
    constructor
    · intro hp
      simp [index, hp, ResponseWriter.write, ResponseWriter.setHeader,
        newRespsonseWriter]
    · intro hp
      constructor
      · intro hnn
        have hok := execTemplate_nonneg (tmplDataOf resp) hnn
        simp [index, hp, hok, ResponseWriter.write, newRespsonseWriter]
      · intro hx
        have hfail := execTemplate_neg (tmplDataOf resp) hx
        simp [index, hp, hfail, httpError, ResponseWriter.write,
          ResponseWriter.writeHeader, ResponseWriter.setHeader]

theorem c4_status_amended_witness :
    (plainChoice reqCurl = true
      ∧ plainChoice reqPlainOff = false
      ∧ (∀ rg ∈ (tmplDataOf resp22).Regions, ∀ st ∈ rg.Stations, 0 ≤ st.Count)
      ∧ (∃ rg ∈ (tmplDataOf respNeg).Regions, ∃ st ∈ rg.Stations, st.Count < 0))
    ∧ (index FetchOutcome.getFailed reqPlainOff newRespsonseWriter).statusCode = 500
    ∧ (index (FetchOutcome.ok resp22) reqCurl newRespsonseWriter).statusCode = 200
    ∧ (index (FetchOutcome.ok resp22) reqPlainOff newRespsonseWriter).statusCode = 200
    ∧ (index (FetchOutcome.ok respNeg) reqPlainOff newRespsonseWriter).statusCode = 500 := by
  refine ⟨⟨by decide, by decide, by decide, by decide⟩, ?_, ?_, ?_, ?_⟩
  · exact ((c4_status_amended FetchOutcome.getFailed reqPlainOff).1 (Or.inl rfl)).1
  · exact ((c4_status_amended (FetchOutcome.ok resp22) reqCurl).2 resp22 rfl).1
      (by decide)
  · exact (((c4_status_amended (FetchOutcome.ok resp22) reqPlainOff).2 resp22 rfl).2
      (by decide)).1 (by decide)
  · exact (((c4_status_amended (FetchOutcome.ok respNeg) reqPlainOff).2 respNeg rfl).2
      (by decide)).2 (by decide)

/-- Claim C6.  On a decoded feed the handler renders exactly one of two
formats: the fixed-width plain text (with `Content-Type: text/plain`)
when the Accept header equals `"text/plain"` or the lowercased
User-Agent begins with `"curl/"`, and the HTML template output in every
other case (on a template error, the partial output followed by the
`http.Error` answer). -/
theorem c6_two_formats (resp : StationStatusResponse) (r : Request)
    (w : ResponseWriter) :
    ((headerGet r.Header "Accept" = "text/plain" ∨
        goHasLead (toLowerGo (Request.UserAgent r)) "curl/" = true) →
       index (FetchOutcome.ok resp) r w =
         (w.setHeader "Content-Type" "text/plain").write
           (plainBody (tmplDataOf resp).Regions))
    ∧ (¬(headerGet r.Header "Accept" = "text/plain" ∨
          goHasLead (toLowerGo (Request.UserAgent r)) "curl/" = true) →
        ((execTemplate (tmplDataOf resp)).2 = true →
           index (FetchOutcome.ok resp) r w =
             w.write (execTemplate (tmplDataOf resp)).1)
        ∧ ((execTemplate (tmplDataOf resp)).2 = false →
           index (FetchOutcome.ok resp) r w =
             httpError (w.write (execTemplate (tmplDataOf resp)).1)
               "Template Error" 500)) := by
  have hiff : plainChoice r = true ↔
      (headerGet r.Header "Accept" = "text/plain" ∨
        goHasLead (toLowerGo (Request.UserAgent r)) "curl/" = true) := by
    simp [plainChoice]
  constructor
  · intro hcond
    have hp : plainChoice r = true := hiff.mpr hcond
    simp [index, hp]
  · intro hcond
    have hp : plainChoice r = false := by
      cases hpc : plainChoice r with
      | false => rfl
      | true => exact absurd (hiff.mp hpc) hcond
    constructor
    · intro hok
      simp [index, hp, hok]
    · intro hfail
      simp [index, hp, hfail]

theorem c6_two_formats_witness :
    ((goHasLead (toLowerGo (Request.UserAgent reqCurl)) "curl/" = true)
      ∧ ¬(headerGet reqPlainOff.Header "Accept" = "text/plain" ∨
          goHasLead (toLowerGo (Request.UserAgent reqPlainOff)) "curl/" = true)
      ∧ (execTemplate (tmplDataOf resp22)).2 = true)
    ∧ index (FetchOutcome.ok resp22) reqCurl newRespsonseWriter =
        (newRespsonseWriter.setHeader "Content-Type" "text/plain").write
          (plainBody (tmplDataOf resp22).Regions)
    ∧ index (FetchOutcome.ok resp22) reqPlainOff newRespsonseWriter =
        newRespsonseWriter.write (execTemplate (tmplDataOf resp22)).1 := by
  refine ⟨⟨by decide, by decide, by decide⟩, ?_, ?_⟩
  · exact (c6_two_formats resp22 reqCurl newRespsonseWriter).1 (Or.inr (by decide))
  · exact ((c6_two_formats resp22 reqPlainOff newRespsonseWriter).2 (by decide)).1
      (by decide)

/-! ## Claim theorem: determinism (C10) -/

/-- Claim C10.  The handler is stateless and deterministic: with the same
upstream outcome (the decode is a function of the fetched bytes) and the
same Accept header and User-Agent, two requests produce identical
writer states — the same body bytes, status code and headers — whatever
their other fields (method, path, body, remote address, other headers). -/
theorem c10_deterministic (fetch : FetchOutcome) (r₁ r₂ : Request)
    (w : ResponseWriter)
    (hacc : headerGet r₁.Header "Accept" = headerGet r₂.Header "Accept")
    (hua : Request.UserAgent r₁ = Request.UserAgent r₂) :
    index fetch r₁ w = index fetch r₂ w := by
  cases fetch with
  | getFailed => rfl
  | decodeFailed => rfl
  | ok resp =>
      have hp : plainChoice r₁ = plainChoice r₂ := by
        simp [plainChoice, hacc, hua]
      simp [index, hp]

/-- Two requests agreeing on Accept and User-Agent but different in
method, body, remote address and the other headers. -/
def reqVarA : Request :=
  { Method := "GET", URL := { Host := "", Scheme := "", Path := "/", RawQuery := "" },
    Header := headerSet (headerSet [] "User-Agent" "curl/8.0") "X-Request-Id" "1",
    Body := "", RemoteAddr := "1.2.3.4" }

def reqVarB : Request :=
  { Method := "POST", URL := { Host := "h", Scheme := "https", Path := "/x", RawQuery := "" },
    Header := headerSet (headerSet [] "X-Request-Id" "2") "User-Agent" "curl/8.0",
    Body := "zzz", RemoteAddr := "5.6.7.8" }

theorem c10_deterministic_witness :
    (headerGet reqVarA.Header "Accept" = headerGet reqVarB.Header "Accept"
      ∧ Request.UserAgent reqVarA = Request.UserAgent reqVarB)
    ∧ index (FetchOutcome.ok resp22) reqVarA newRespsonseWriter =
        index (FetchOutcome.ok resp22) reqVarB newRespsonseWriter := by
  refine ⟨⟨by decide, by decide⟩, ?_⟩
  exact c10_deterministic (FetchOutcome.ok resp22) reqVarA reqVarB
    newRespsonseWriter (by decide) (by decide)

/-! ## Claim theorem: the adapter is pure data-shape translation (C7)

`AWSHandler` hands the buffered writer to the handler, which interacts
with it only through `Header().Set`, `Write` and `WriteHeader`.  An
arbitrary interaction is a list of such operations. -/

/-- One operation the handler can perform on the writer. -/
inductive WriterOp where
  | setHeader (k v : String)
  | write (p : String)
  | writeHeader (code : Int)
deriving DecidableEq, Repr

/-- Apply one operation to the writer. -/
def applyOp (w : ResponseWriter) : WriterOp → ResponseWriter
  | WriterOp.setHeader k v => w.setHeader k v
  | WriterOp.write p => w.write p
  | WriterOp.writeHeader code => w.writeHeader code

/-- Run a whole interaction. -/
def runOps (w : ResponseWriter) (ops : List WriterOp) : ResponseWriter :=
  ops.foldl applyOp w

/-- The bytes the handler wrote, in order. -/
def writtenBody : List WriterOp → String
  | [] => ""
  | WriterOp.write p :: rest => p ++ writtenBody rest
  | _ :: rest => writtenBody rest

/-- The status after `ops`, starting from `c` (each `WriteHeader`
overwrites). -/
def statusFold (c : Int) : List WriterOp → Int
  | [] => c
  | WriterOp.writeHeader n :: rest => statusFold n rest
  | _ :: rest => statusFold c rest

/-- The status the handler set, defaulting to 200 when it set none. -/
def lastStatus (ops : List WriterOp) : Int := statusFold 200 ops

/-- The last value the handler set for canonical key `ck`, starting
from `acc`. -/
def setFold (acc : Option String) (ck : String) : List WriterOp → Option String
  | [] => acc
  | WriterOp.setHeader k v :: rest =>
      setFold (if canonicalMIMEHeaderKey k = ck then some v else acc) ck rest
  | _ :: rest => setFold acc ck rest

/-- The last value the handler set for canonical key `ck`, if any. -/
def lastSetValue (ops : List WriterOp) (ck : String) : Option String :=
  setFold none ck ops

theorem runOps_b (ops : List WriterOp) : ∀ w : ResponseWriter,
    (runOps w ops).b = w.b ++ writtenBody ops := by
  induction ops with
  | nil =>
      intro w
      show w.b = w.b ++ ""
      cases w with
      | mk header b statusCode =>
          show b = b ++ ""
          cases b with
          | mk data => show String.mk data = String.mk (data ++ []) ; rw [List.append_nil]
  | cons op rest ih =>
      intro w
      cases op with
      | setHeader k v => exact ih (w.setHeader k v)
      | writeHeader code => exact ih (w.writeHeader code)
      | write p =>
          show (runOps (w.write p) rest).b = w.b ++ (p ++ writtenBody rest)
          rw [ih (w.write p)]
          show w.b ++ p ++ writtenBody rest = w.b ++ (p ++ writtenBody rest)
          cases w.b with
          | mk d₁ =>
              cases p with
              | mk d₂ =>
                  cases hwb : writtenBody rest with
                  | mk d₃ =>
                      show String.mk (d₁ ++ d₂ ++ d₃) = String.mk (d₁ ++ (d₂ ++ d₃))
                      rw [List.append_assoc]

theorem runOps_status (ops : List WriterOp) : ∀ w : ResponseWriter,
    (runOps w ops).statusCode = statusFold w.statusCode ops := by
  induction ops with
  | nil => intro w; rfl
  | cons op rest ih =>
      intro w
      cases op with
      | setHeader k v => exact ih (w.setHeader k v)
      | write p => exact ih (w.write p)
      | writeHeader code => exact ih (w.writeHeader code)

/-- The accumulator of `setFold` only matters when no later `Set` hits
the key. -/
theorem setFold_acc (ck : String) (ops : List WriterOp) :
    ∀ acc : Option String,
      setFold acc ck ops =
        match setFold none ck ops with
        | some v => some v
        | none => acc := by
  induction ops with
  | nil => intro acc; rfl
  | cons op rest ih =>
      intro acc
      cases op with
      | setHeader k v =>
          show setFold (if canonicalMIMEHeaderKey k = ck then some v else acc) ck rest = _
          by_cases hk : canonicalMIMEHeaderKey k = ck
          · simp only [if_pos hk]
            conv_rhs => rw [setFold]
            simp only [if_pos hk]
            rw [ih (some v)]
            cases setFold none ck rest <;> rfl
          · simp only [if_neg hk]
            conv_rhs => rw [setFold]
            simp only [if_neg hk]
            rw [ih acc]
      | write p => exact ih acc
      | writeHeader code => exact ih acc

theorem runOps_header (ops : List WriterOp) (ck : String) :
    ∀ w : ResponseWriter,
      assocGet (runOps w ops).header ck =
        match lastSetValue ops ck with
        | some v => some [v]
        | none => assocGet w.header ck := by
  induction ops with
  | nil => intro w; rfl
  | cons op rest ih =>
      intro w
      cases op with
      | write p =>
          show assocGet (runOps (w.write p) rest).header ck = _
          rw [ih (w.write p)]
          rfl
      | writeHeader code =>
          show assocGet (runOps (w.writeHeader code) rest).header ck = _
          rw [ih (w.writeHeader code)]
          rfl
      | setHeader k v =>
          show assocGet (runOps (w.setHeader k v) rest).header ck = _
          rw [ih (w.setHeader k v)]
          show _ = match lastSetValue (WriterOp.setHeader k v :: rest) ck with
            | some v' => some [v']
            | none => assocGet w.header ck
          have hexp : lastSetValue (WriterOp.setHeader k v :: rest) ck =
              setFold (if canonicalMIMEHeaderKey k = ck then some v else none) ck rest := rfl
          rw [hexp, setFold_acc ck rest]
          cases hrest : setFold none ck rest with
          | some v' => simp [lastSetValue, hrest]
          | none =>
              simp only [lastSetValue, hrest]
              by_cases hk : canonicalMIMEHeaderKey k = ck
              · simp only [if_pos hk]
                show assocGet (headerSet w.header k v) ck = some [v]
                rw [headerSet, hk]
                exact assocGet_set_eq w.header ck [v]
              · simp only [if_neg hk]
                show assocGet (headerSet w.header k v) ck = assocGet w.header ck
                exact assocGet_set_ne w.header (canonicalMIMEHeaderKey k) ck [v] hk

/-- Keys whose value list holds `[v]` survive `Response()`'s first-value
extraction with value `v`. -/
theorem response_headers_get (h : List (String × List String)) (ck : String)
    (v : String) (hget : assocGet h ck = some [v]) :
    assocGet (h.filterMap fun kv =>
      match kv.2 with
      | [] => none
      | x :: _ => some (kv.1, x)) ck = some v := by
  induction h with
  | nil => cases hget
  | cons kv rest ih =>
      obtain ⟨k₀, vs⟩ := kv
      by_cases hk : k₀ = ck
      · subst hk
        have hvs : vs = [v] := by
          have : (if k₀ = k₀ then some vs else assocGet rest k₀) = some [v] := hget
          simpa using this
        subst hvs
        simp [List.filterMap, assocGet]
      · have hget' : assocGet rest ck = some [v] := by
          have : (if k₀ = ck then some vs else assocGet rest ck) = some [v] := hget
          simpa [hk] using this
        cases vs with
        | nil => simpa [List.filterMap, assocGet, hk] using ih hget'
        | cons x xs => simpa [List.filterMap, assocGet, hk] using ih hget'

/-- Claim C7.  The serverless adapter is pure data-shape translation: for
any handler interaction, the `APIGatewayProxyResponse` carries exactly
the bytes the handler wrote, the status the handler set (200 when none
was set), and, for each header key the handler set, its first — here
only — value. -/
theorem c7_adapter_shape (ops : List WriterOp) :
    ((runOps newRespsonseWriter ops).Response).Body = writtenBody ops
    ∧ ((runOps newRespsonseWriter ops).Response).StatusCode = lastStatus ops
    ∧ (∀ k v : String, lastSetValue ops (canonicalMIMEHeaderKey k) = some v →
        assocGet ((runOps newRespsonseWriter ops).Response).Headers
          (canonicalMIMEHeaderKey k) = some v) := by
  refine ⟨?_, ?_, ?_⟩
  · show (runOps newRespsonseWriter ops).b = writtenBody ops
    rw [runOps_b ops newRespsonseWriter]
    rfl
  · show (runOps newRespsonseWriter ops).statusCode = lastStatus ops
    rw [runOps_status ops newRespsonseWriter]
    rfl
  · intro k v hset
    have hh := runOps_header ops (canonicalMIMEHeaderKey k) newRespsonseWriter
    rw [hset] at hh
    exact response_headers_get _ _ _ hh

/-- A concrete handler interaction for the witness. -/
def opsW : List WriterOp :=
  [WriterOp.setHeader "X-Frame-Options" "DENY", WriterOp.write "hello ",
   WriterOp.writeHeader 201, WriterOp.write "world"]

theorem c7_adapter_shape_witness :
    lastSetValue opsW (canonicalMIMEHeaderKey "X-Frame-Options") = some "DENY"
    ∧ ((runOps newRespsonseWriter opsW).Response).Body = "hello world"
    ∧ ((runOps newRespsonseWriter opsW).Response).StatusCode = 201
    ∧ assocGet ((runOps newRespsonseWriter opsW).Response).Headers
        (canonicalMIMEHeaderKey "X-Frame-Options") = some "DENY" := by
  refine ⟨by decide, ?_, ?_, ?_⟩
  · rw [(c7_adapter_shape opsW).1]; rfl
  · rw [(c7_adapter_shape opsW).2.1]; rfl
  · exact (c7_adapter_shape opsW).2.2 "X-Frame-Options" "DENY" (by decide)

end EbikeStatus
